import Mathlib

/-!
Shallow embedding of the billing-invoice-automation CLI core
(`src/setup.ts`, `src/config.ts`, `src/generate-url.ts`, `src/types.ts`).

Strings are Lean `String`; JavaScript header objects are ordered
association lists `List (String × String)`; the external Composio
platform is a parameter: each operation receives the outcome of the
single platform call it would make (`Except String r`, the error side
carrying the thrown error's message), and returns alongside its result
the number of platform calls it actually performed (0 or 1), so that
"fails before any network interaction" is expressible.
-/

namespace Billing

/-- Character-list version of `startsWith`. -/
def listStartsWith : List Char → List Char → Bool
  | [], _ => true
  | _ :: _, [] => false
  | a :: as, b :: bs => a == b && listStartsWith as bs

/-- Does the pattern occur as a contiguous segment of the list?
Models JavaScript `String.prototype.includes` on the char level. -/
def listContainsSeg (pat : List Char) : List Char → Bool
  | [] => listStartsWith pat []
  | b :: bs => listStartsWith pat (b :: bs) || listContainsSeg pat bs

/-- `strContainsSub s pat` models JS `s.includes(pat)`. -/
def strContainsSub (s pat : String) : Bool :=
  listContainsSeg pat.data s.data

/-- ASCII whitespace recognizer used to model JS `trim()`. -/
def isJsWs (c : Char) : Bool :=
  c == ' ' || c == '\t' || c == '\n' || c == '\r'

/-- Drop leading whitespace characters. -/
def dropLeadWs : List Char → List Char
  | [] => []
  | c :: cs => if isJsWs c then dropLeadWs cs else c :: cs

/-- Models JavaScript `String.prototype.trim` (leading and trailing
whitespace removed). -/
def jsTrim (s : String) : String :=
  String.mk ((dropLeadWs (dropLeadWs s.data).reverse).reverse)

/-- Uppercasing via the character map (used for toolkit qualification). -/
def upperAscii (s : String) : String :=
  String.mk (s.data.map Char.toUpper)

/-! ## Data model (`src/types.ts`) -/

/-- `SetupConfig` of `types.ts`. -/
structure SetupConfig where
  composioApiKey : String
  serverName : String
deriving Repr, DecidableEq

/-- `SetupResult` of `types.ts`. -/
structure SetupResult where
  serverId : String
  serverName : String
  toolkits : List String
  allowedTools : List String
deriving Repr, DecidableEq

/-- `ToolkitConfig` of `types.ts`. -/
structure ToolkitConfig where
  toolkit : String
  authConfigId : Option String
deriving Repr, DecidableEq

/-- `MCPServerConfig` of `types.ts`. -/
structure MCPServerConfig where
  name : String
  toolkits : List ToolkitConfig
  allowedTools : List String
deriving Repr, DecidableEq

/-- `GenerateUrlConfig` of `types.ts`. -/
structure GenerateUrlConfig where
  composioApiKey : String
  serverId : String
  userId : String
deriving Repr, DecidableEq

/-- `GeneratedUrl` of `types.ts`: headers as an ordered association list. -/
structure GeneratedUrl where
  url : String
  headers : List (String × String)
deriving Repr, DecidableEq

/-- The fields of the platform's response to `composio.mcp.create` that
the code reads (`mcpConfig.id`, `mcpConfig.name`). -/
structure McpCreateResponse where
  id : String
  name : String
deriving Repr, DecidableEq

/-- Error taxonomy: `ComposioApiKeyError` (setup.ts), `MCPServerError`
(setup.ts, with optional wrapped cause), `UrlGenerationError`
(generate-url.ts, with optional wrapped cause). Causes are modelled by
the wrapped error's message. -/
inductive AppError where
  | composioApiKeyError (message : String)
  | mcpServerError (message : String) (cause : Option String)
  | urlGenerationError (message : String) (cause : Option String)
deriving Repr, DecidableEq

/-- Is the outcome a raised `ComposioApiKeyError` (a credential error)? -/
def isCredentialError {α : Type} : Except AppError α → Bool
  | .error (.composioApiKeyError _) => true
  | _ => false

/-! ## Fixed manifest (`src/config.ts`) -/

/-- `BILLING_TOOLKITS` of `config.ts`. -/
def BILLING_TOOLKITS : List ToolkitConfig :=
  [⟨"gmail", none⟩, ⟨"googlesheets", none⟩, ⟨"googledrive", none⟩,
   ⟨"outlook", none⟩, ⟨"xero", none⟩]

/-- `BILLING_ALLOWED_TOOLS` of `config.ts`. -/
def BILLING_ALLOWED_TOOLS : List String :=
  ["GMAIL_FETCH_EMAILS",
   "GMAIL_GET_ATTACHMENT",
   "GMAIL_SEND_EMAIL",
   "GOOGLESHEETS_BATCH_UPDATE",
   "GOOGLESHEETS_CREATE_GOOGLE_SHEET1",
   "GOOGLEDRIVE_DOWNLOAD_FILE",
   "GOOGLEDRIVE_UPLOAD_FILE",
   "OUTLOOK_SEARCH_MESSAGES",
   "OUTLOOK_GET_ATTACHMENT",
   "XERO_LIST_INVOICES",
   "XERO_CREATE_INVOICE"]

/-- `BILLING_MCP_CONFIG` of `config.ts`. -/
def BILLING_MCP_CONFIG : MCPServerConfig :=
  ⟨"billing-invoice-automation", BILLING_TOOLKITS, BILLING_ALLOWED_TOOLS⟩

/-- A tool name is qualified under a toolkit when it starts with the
toolkit's uppercased identifier followed by an underscore. -/
def qualifiedUnder (tool toolkit : String) : Bool :=
  listStartsWith (upperAscii toolkit ++ "_").data tool.data

/-! ## Provisioner (`src/setup.ts`) -/

/-- The server name `setup` actually uses:
`config.serverName || BILLING_MCP_CONFIG.name` (JS `||`: only the empty
string is falsy among strings). -/
def effectiveName (config : SetupConfig) : String :=
  if config.serverName = "" then BILLING_MCP_CONFIG.name else config.serverName

/-- `setup` of `setup.ts`. `create` is the outcome of the single
`composio.mcp.create` platform call; the second component counts
platform calls performed (the create call is always attempted: the
function does no local validation). Error classification follows the
catch block: `already exists` → conflict `MCPServerError`;
`Invalid` / `unauthorized` / `401` → `ComposioApiKeyError`;
anything else → generic `MCPServerError`. -/
def setup (config : SetupConfig) (create : Except String McpCreateResponse) :
    Except AppError SetupResult × Nat :=
  let serverName := effectiveName config
  match create with
  | .ok mcpConfig =>
      (.ok ⟨mcpConfig.id, mcpConfig.name,
            BILLING_TOOLKITS.map (fun t => t.toolkit), BILLING_ALLOWED_TOOLS⟩, 1)
  | .error errorMessage =>
      if strContainsSub errorMessage "already exists" then
        (.error (.mcpServerError
          ("MCP server with name '" ++ serverName ++
           "' already exists with different configuration. " ++
           "Please use a different server name or delete the existing server.")
          (some errorMessage)), 1)
      else if strContainsSub errorMessage "Invalid" ||
              strContainsSub errorMessage "unauthorized" ||
              strContainsSub errorMessage "401" then
        (.error (.composioApiKeyError "Invalid Composio API key"), 1)
      else
        (.error (.mcpServerError
          ("Failed to create MCP server: " ++ errorMessage)
          (some errorMessage)), 1)

/-- `getApiKey` of `setup.ts`: reads `COMPOSIO_API_KEY` from the
environment (modelled as `Option String`); absent or blank after
trimming → `ComposioApiKeyError`. -/
def getApiKey (env : Option String) : Except AppError String :=
  match env with
  | none => .error (.composioApiKeyError
      "COMPOSIO_API_KEY environment variable is required.")
  | some apiKey =>
      if jsTrim apiKey = "" then
        .error (.composioApiKeyError
          "COMPOSIO_API_KEY environment variable is required.")
      else .ok apiKey

/-- `setupFromEnv` of `setup.ts`: validates the environment credential
via `getApiKey`, defaults the server name
(`serverName || BILLING_MCP_CONFIG.name`, with an absent optional
argument modelled as `none`), then delegates to `setup`. -/
def setupFromEnv (env : Option String) (serverName : Option String)
    (create : Except String McpCreateResponse) :
    Except AppError SetupResult × Nat :=
  match getApiKey env with
  | .error e => (.error e, 0)
  | .ok apiKey =>
      setup ⟨apiKey,
        match serverName with
        | none => BILLING_MCP_CONFIG.name
        | some s => if s = "" then BILLING_MCP_CONFIG.name else s⟩ create

/-! ## URL & config generator (`src/generate-url.ts`) -/

/-- Header lookup in an ordered association list (JS object property
read: first — unique — matching key). -/
def getHeader (hs : List (String × String)) (k : String) : Option String :=
  (hs.find? (fun p => p.1 == k)).map (fun p => p.2)

/-- JS object spread with override `{...hs, k: v}`: if the key is
present its value is updated in place, otherwise the entry is appended
at the end. -/
def setHeader (hs : List (String × String)) (k v : String) :
    List (String × String) :=
  if hs.any (fun p => p.1 == k) then
    hs.map (fun p => if p.1 == k then (k, v) else p)
  else hs ++ [(k, v)]

/-- `generateUserUrl` of `generate-url.ts`. `generate` is the outcome of
the single `composio.mcp.generate` platform call; the second component
counts platform calls performed. Validation checks credential, then
server ID, then user ID (JS `!s || s.trim() === ''` collapses to
`jsTrim s = ""` since the field is a string); every platform failure is
wrapped in a generic `UrlGenerationError`. -/
def generateUserUrl (config : GenerateUrlConfig)
    (generate : Except String String) :
    Except AppError GeneratedUrl × Nat :=
  if jsTrim config.composioApiKey = "" then
    (.error (.urlGenerationError "Composio API key is required" none), 0)
  else if jsTrim config.serverId = "" then
    (.error (.urlGenerationError "Server ID is required" none), 0)
  else if jsTrim config.userId = "" then
    (.error (.urlGenerationError "User ID is required" none), 0)
  else
    match generate with
    | .ok url =>
        (.ok ⟨url, [("x-api-key", config.composioApiKey)]⟩, 1)
    | .error msg =>
        (.error (.urlGenerationError
          ("Failed to generate MCP URL: " ++ msg) (some msg)), 1)

/-- Connection descriptor of the VSCode/Kiro document shape
(`VSCodeMCPConfig` entry of `types.ts`). -/
structure ServerEntry where
  type : String
  url : String
  headers : List (String × String)
deriving Repr, DecidableEq

/-- `VSCodeMCPConfig` of `types.ts`: `mcpServers` as an ordered map. -/
structure VSCodeMCPConfig where
  mcpServers : List (String × ServerEntry)
deriving Repr, DecidableEq

/-- Connection descriptor of the Claude Desktop document shape
(`ClaudeDesktopMCPConfig` entry of `types.ts`); all fields optional,
with `none` modelling an absent key. -/
structure ClaudeServerEntry where
  command : Option String
  args : Option (List String)
  url : Option String
  type : Option String
  headers : Option (List (String × String))
deriving Repr, DecidableEq

/-- `ClaudeDesktopMCPConfig` of `types.ts`. -/
structure ClaudeDesktopMCPConfig where
  mcpServers : List (String × ClaudeServerEntry)
deriving Repr, DecidableEq

/-- `IDEConfig` of `types.ts`. -/
structure IDEConfig where
  vscode : VSCodeMCPConfig
  kiro : VSCodeMCPConfig
  claudeDesktop : ClaudeDesktopMCPConfig
deriving Repr, DecidableEq

/-- The value the rendered configs put under `x-api-key`:
`headers['x-api-key'] || 'YOUR_COMPOSIO_API_KEY'` (absent property reads
as `undefined`, falsy; the empty string is falsy). -/
def resolveApiKey (hs : List (String × String)) : String :=
  match getHeader hs "x-api-key" with
  | none => "YOUR_COMPOSIO_API_KEY"
  | some v => if v = "" then "YOUR_COMPOSIO_API_KEY" else v

/-- `generateIDEConfigs` of `generate-url.ts`: three documents keyed by
`serverLabel`; each copies `headers` by spread and overrides
`x-api-key` with the resolved value; the Claude Desktop document sets
only `type`, `url`, `headers` (no `command`/`args`). -/
def generateIDEConfigs (generatedUrl : GeneratedUrl) (serverLabel : String) :
    IDEConfig :=
  let hs := setHeader generatedUrl.headers "x-api-key"
              (resolveApiKey generatedUrl.headers)
  { vscode := ⟨[(serverLabel, ⟨"http", generatedUrl.url, hs⟩)]⟩
  , kiro := ⟨[(serverLabel, ⟨"http", generatedUrl.url, hs⟩)]⟩
  , claudeDesktop :=
      ⟨[(serverLabel, ⟨none, none, some generatedUrl.url, some "http", some hs⟩)]⟩ }

/-- `generateVSCodeConfig` of `generate-url.ts`. -/
def generateVSCodeConfig (generatedUrl : GeneratedUrl) (serverLabel : String) :
    VSCodeMCPConfig :=
  (generateIDEConfigs generatedUrl serverLabel).vscode

/-- `generateKiroConfig` of `generate-url.ts`. -/
def generateKiroConfig (generatedUrl : GeneratedUrl) (serverLabel : String) :
    VSCodeMCPConfig :=
  (generateIDEConfigs generatedUrl serverLabel).kiro

/-- `generateClaudeDesktopConfig` of `generate-url.ts`. -/
def generateClaudeDesktopConfig (generatedUrl : GeneratedUrl)
    (serverLabel : String) : ClaudeDesktopMCPConfig :=
  (generateIDEConfigs generatedUrl serverLabel).claudeDesktop

/-- `getIDEConfigPath` of `generate-url.ts`, totalized over `String`
exactly as the switch statement's default branch does. -/
def getIDEConfigPath (ide : String) : String :=
  if ide = "vscode" then ".vscode/mcp.json"
  else if ide = "kiro" then ".kiro/settings/mcp.json"
  else if ide = "claudeDesktop" then
    "~/Library/Application Support/Claude/claude_desktop_config.json"
  else "mcp.json"

/-- The `x-api-key` value of the document's entry under a label
(VSCode/Kiro shape). -/
def docHeaderVal (d : VSCodeMCPConfig) (l : String) : Option String :=
  match d.mcpServers.find? (fun p => p.1 == l) with
  | none => none
  | some p => getHeader p.2.headers "x-api-key"

/-- The `x-api-key` value of the document's entry under a label
(Claude Desktop shape). -/
def claudeHeaderVal (d : ClaudeDesktopMCPConfig) (l : String) : Option String :=
  match d.mcpServers.find? (fun p => p.1 == l) with
  | none => none
  | some p =>
      match p.2.headers with
      | none => none
      | some hs => getHeader hs "x-api-key"

/-- Refinement-comparison map for the implicit claim that the Claude
Desktop document carries the same data as the HTTP-shaped ones: embeds
a VSCode/Kiro document into the Claude Desktop shape with `command` and
`args` absent. -/
def vsConfigToClaude (d : VSCodeMCPConfig) : ClaudeDesktopMCPConfig :=
  ⟨d.mcpServers.map (fun p =>
    (p.1, ⟨none, none, some p.2.url, some p.2.type, some p.2.headers⟩))⟩

/-! ## Helper lemmas -/

theorem getHeader_map_set (hs : List (String × String)) (k v : String)
    (h : hs.any (fun p => p.1 == k) = true) :
    (hs.map (fun p => if p.1 == k then (k, v) else p)).find?
      (fun p => p.1 == k) = some (k, v) := by
  induction hs with
  | nil => simp at h
  | cons p rest ih =>
    simp only [List.map_cons]
    by_cases hp : (p.1 == k) = true
    · rw [if_pos hp]
      exact List.find?_cons_of_pos _ (by simp)
    · rw [if_neg hp, List.find?_cons_of_neg _ (by exact hp)]
      refine ih ?_
      simp only [List.any_cons, Bool.or_eq_true] at h
      exact h.resolve_left hp

theorem find?_append_key (hs : List (String × String)) (k v : String)
    (h : hs.any (fun p => p.1 == k) = false) :
    (hs ++ [(k, v)]).find? (fun p => p.1 == k) = some (k, v) := by
  induction hs with
  | nil =>
    rw [List.nil_append]
    exact List.find?_cons_of_pos _ (by simp)
  | cons p rest ih =>
    simp only [List.any_cons, Bool.or_eq_false_iff] at h
    rw [List.cons_append, List.find?_cons_of_neg _ (by simp [h.1])]
    exact ih h.2

/-- Reading back the overridden key after a spread-set always yields the
written value. -/
theorem getHeader_setHeader (hs : List (String × String)) (k v : String) :
    getHeader (setHeader hs k v) k = some v := by
  unfold getHeader setHeader
  by_cases h : hs.any (fun p => p.1 == k) = true
  · rw [if_pos h, getHeader_map_set hs k v h]
    rfl
  · have h' : hs.any (fun p => p.1 == k) = false := by
      cases hb : hs.any (fun p => p.1 == k)
      · rfl
      · exact absurd hb h
    rw [if_neg h, find?_append_key hs k v h']
    rfl

theorem docHeaderVal_single (l : String) (e : ServerEntry) :
    docHeaderVal ⟨[(l, e)]⟩ l = getHeader e.headers "x-api-key" := by
  unfold docHeaderVal
  rw [List.find?_cons_of_pos _ (by simp)]

theorem claudeHeaderVal_single (l : String)
    (hs : List (String × String)) (c u t : Option String)
    (g : Option (List String)) :
    claudeHeaderVal ⟨[(l, ⟨c, g, u, t, some hs⟩)]⟩ l =
      getHeader hs "x-api-key" := by
  unfold claudeHeaderVal
  rw [List.find?_cons_of_pos _ (by simp)]

/-- All three rendered documents carry the resolved API-key value under
`x-api-key` at the label's entry. -/
theorem headerVal_generateIDEConfigs (gu : GeneratedUrl) (l : String) :
    docHeaderVal (generateIDEConfigs gu l).vscode l =
      some (resolveApiKey gu.headers) ∧
    docHeaderVal (generateIDEConfigs gu l).kiro l =
      some (resolveApiKey gu.headers) ∧
    claudeHeaderVal (generateIDEConfigs gu l).claudeDesktop l =
      some (resolveApiKey gu.headers) := by
  refine ⟨?_, ?_, ?_⟩
  · exact (docHeaderVal_single l _).trans (getHeader_setHeader _ _ _)
  · exact (docHeaderVal_single l _).trans (getHeader_setHeader _ _ _)
  · exact (claudeHeaderVal_single l _ _ _ _ _).trans (getHeader_setHeader _ _ _)

/-! ## Claim theorems -/

/-- C1 (counterexample): a platform failure with message `"401"` during
`generateUserUrl` is wrapped in the generic `UrlGenerationError`, not
classified as a credential error — refuting the claim that both
operations raise `ComposioApiKeyError` on a 401-marked failure. -/
theorem generateUserUrl_401_generic_cex :
    isCredentialError
      (generateUserUrl ⟨"k1", "srv-1", "u1"⟩ (.error "401")).1 = false ∧
    (generateUserUrl ⟨"k1", "srv-1", "u1"⟩ (.error "401")).1 =
      .error (.urlGenerationError "Failed to generate MCP URL: 401" (some "401")) :=
  ⟨rfl, rfl⟩

/-- C1 (amended): during `setup`, a platform failure whose message
contains `"401"` and does not contain `"already exists"` raises
`ComposioApiKeyError`; during `generateUserUrl` (with validly non-blank
fields), every platform failure — 401-marked or not — raises the
generic `UrlGenerationError` wrapping the failure's message. -/
theorem auth_failure_classification (config : SetupConfig) (msg : String)
    (h401 : strContainsSub msg "401" = true)
    (hnc : strContainsSub msg "already exists" = false)
    (g : GenerateUrlConfig) (gmsg : String)
    (hk : jsTrim g.composioApiKey ≠ "") (hs : jsTrim g.serverId ≠ "")
    (hu : jsTrim g.userId ≠ "") :
    (setup config (.error msg)).1 =
      .error (.composioApiKeyError "Invalid Composio API key") ∧
    (generateUserUrl g (.error gmsg)).1 =
      .error (.urlGenerationError
        ("Failed to generate MCP URL: " ++ gmsg) (some gmsg)) := by
  constructor
  · simp [setup, hnc, h401]
  · simp [generateUserUrl, hk, hs, hu]

/-- C1 (witness). -/
theorem auth_failure_classification_witness :
    (setup ⟨"k", "srv"⟩ (.error "401")).1 =
      .error (.composioApiKeyError "Invalid Composio API key") ∧
    (generateUserUrl ⟨"k1", "srv-1", "u1"⟩ (.error "boom")).1 =
      .error (.urlGenerationError "Failed to generate MCP URL: boom" (some "boom")) :=
  auth_failure_classification ⟨"k", "srv"⟩ "401" (by decide) (by decide)
    ⟨"k1", "srv-1", "u1"⟩ "boom" (by decide) (by decide) (by decide)

/-- C2 (counterexample): `setup` with an empty credential and an empty
server name does not fail — the platform create call is performed
(call count 1) and, with a succeeding platform, `setup` returns a
success; no validation error is raised before network interaction. -/
theorem setup_no_local_validation_cex :
    (setup ⟨"", ""⟩ (.ok ⟨"srv-1", "billing-invoice-automation"⟩)).2 = 1 ∧
    (setup ⟨"", ""⟩ (.ok ⟨"srv-1", "billing-invoice-automation"⟩)).1 =
      .ok ⟨"srv-1", "billing-invoice-automation",
           ["gmail", "googlesheets", "googledrive", "outlook", "xero"],
           BILLING_ALLOWED_TOOLS⟩ :=
  ⟨rfl, rfl⟩

/-- C2 (amended): `setup` itself performs no local validation — the
platform create call is always attempted, for every config (an empty
server name silently falls back to the default). Only `setupFromEnv`
validates the environment credential: an absent or whitespace-only
`COMPOSIO_API_KEY` yields `ComposioApiKeyError` with zero platform
calls; the server name is never validated. -/
theorem setup_validation_amended (config : SetupConfig)
    (create : Except String McpCreateResponse) (serverName : Option String)
    (k : String) (hk : jsTrim k = "") :
    (setup config create).2 = 1 ∧
    setupFromEnv none serverName create =
      (.error (.composioApiKeyError
        "COMPOSIO_API_KEY environment variable is required."), 0) ∧
    setupFromEnv (some k) serverName create =
      (.error (.composioApiKeyError
        "COMPOSIO_API_KEY environment variable is required."), 0) := by
  refine ⟨?_, rfl, ?_⟩
  · cases create with
    | ok r => rfl
    | error msg =>
      unfold setup
      dsimp only
      split
      · rfl
      · split
        · rfl
        · rfl
  · simp [setupFromEnv, getApiKey, hk]

/-- C2 (witness). -/
theorem setup_validation_amended_witness :
    (setup ⟨"k", "s"⟩ (.ok ⟨"i", "n"⟩)).2 = 1 ∧
    setupFromEnv none (some "s") (.ok ⟨"i", "n"⟩) =
      (.error (.composioApiKeyError
        "COMPOSIO_API_KEY environment variable is required."), 0) ∧
    setupFromEnv (some " ") (some "s") (.ok ⟨"i", "n"⟩) =
      (.error (.composioApiKeyError
        "COMPOSIO_API_KEY environment variable is required."), 0) :=
  setup_validation_amended ⟨"k", "s"⟩ (.ok ⟨"i", "n"⟩) (some "s") " " (by decide)

/-- C3: every successful `setup` call returns exactly the fixed
manifest's toolkit and allowed-tool lists, in order, independent of the
platform response, from which only `serverId` and `serverName` are
taken. -/
theorem setup_manifest_authoritative (config : SetupConfig)
    (r : McpCreateResponse) :
    setup config (.ok r) =
      (.ok ⟨r.id, r.name,
        ["gmail", "googlesheets", "googledrive", "outlook", "xero"],
        BILLING_ALLOWED_TOOLS⟩, 1) ∧
    BILLING_TOOLKITS.map (fun t => t.toolkit) =
      ["gmail", "googlesheets", "googledrive", "outlook", "xero"] ∧
    BILLING_ALLOWED_TOOLS =
      ["GMAIL_FETCH_EMAILS", "GMAIL_GET_ATTACHMENT", "GMAIL_SEND_EMAIL",
       "GOOGLESHEETS_BATCH_UPDATE", "GOOGLESHEETS_CREATE_GOOGLE_SHEET1",
       "GOOGLEDRIVE_DOWNLOAD_FILE", "GOOGLEDRIVE_UPLOAD_FILE",
       "OUTLOOK_SEARCH_MESSAGES", "OUTLOOK_GET_ATTACHMENT",
       "XERO_LIST_INVOICES", "XERO_CREATE_INVOICE"] :=
  ⟨rfl, rfl, rfl⟩

/-- C5: `generateUserUrl` validates credential, then server ID, then
user ID for non-blankness; the first blank field determines the
field-naming error message, raised with zero platform calls. -/
theorem generateUserUrl_validation_order (config : GenerateUrlConfig)
    (gen : Except String String) :
    (jsTrim config.composioApiKey = "" →
      generateUserUrl config gen =
        (.error (.urlGenerationError "Composio API key is required" none), 0)) ∧
    (jsTrim config.composioApiKey ≠ "" → jsTrim config.serverId = "" →
      generateUserUrl config gen =
        (.error (.urlGenerationError "Server ID is required" none), 0)) ∧
    (jsTrim config.composioApiKey ≠ "" → jsTrim config.serverId ≠ "" →
      jsTrim config.userId = "" →
      generateUserUrl config gen =
        (.error (.urlGenerationError "User ID is required" none), 0)) := by
  refine ⟨fun h1 => ?_, fun h1 h2 => ?_, fun h1 h2 h3 => ?_⟩ <;>
    simp [generateUserUrl, *]

/-- C5 (witness): each validation outcome at a concrete input,
including a whitespace-only field. -/
theorem generateUserUrl_validation_order_witness :
    generateUserUrl ⟨"", "s", "u"⟩ (.ok "https://x") =
      (.error (.urlGenerationError "Composio API key is required" none), 0) ∧
    generateUserUrl ⟨"k", " ", "u"⟩ (.ok "https://x") =
      (.error (.urlGenerationError "Server ID is required" none), 0) ∧
    generateUserUrl ⟨"k", "s", ""⟩ (.ok "https://x") =
      (.error (.urlGenerationError "User ID is required" none), 0) :=
  ⟨(generateUserUrl_validation_order ⟨"", "s", "u"⟩ (.ok "https://x")).1
     (by decide),
   (generateUserUrl_validation_order ⟨"k", " ", "u"⟩ (.ok "https://x")).2.1
     (by decide) (by decide),
   (generateUserUrl_validation_order ⟨"k", "s", ""⟩ (.ok "https://x")).2.2
     (by decide) (by decide) (by decide)⟩

/-- C4: if the endpoint's headers lack `x-api-key` or map it to the
empty string, all three rendered documents carry the literal
placeholder `YOUR_COMPOSIO_API_KEY` under that header; if present and
non-empty, the value appears verbatim in all three. -/
theorem renderConfigs_api_key_placeholder (gu : GeneratedUrl) (l : String) :
    ((getHeader gu.headers "x-api-key" = none ∨
      getHeader gu.headers "x-api-key" = some "") →
      docHeaderVal (generateIDEConfigs gu l).vscode l =
        some "YOUR_COMPOSIO_API_KEY" ∧
      docHeaderVal (generateIDEConfigs gu l).kiro l =
        some "YOUR_COMPOSIO_API_KEY" ∧
      claudeHeaderVal (generateIDEConfigs gu l).claudeDesktop l =
        some "YOUR_COMPOSIO_API_KEY") ∧
    (∀ v, getHeader gu.headers "x-api-key" = some v → v ≠ "" →
      docHeaderVal (generateIDEConfigs gu l).vscode l = some v ∧
      docHeaderVal (generateIDEConfigs gu l).kiro l = some v ∧
      claudeHeaderVal (generateIDEConfigs gu l).claudeDesktop l = some v) := by
  have hm := headerVal_generateIDEConfigs gu l
  constructor
  · intro h
    have hr : resolveApiKey gu.headers = "YOUR_COMPOSIO_API_KEY" := by
      rcases h with h | h <;> simp [resolveApiKey, h]
    rw [hr] at hm
    exact hm
  · intro v hv hne
    have hr : resolveApiKey gu.headers = v := by
      simp [resolveApiKey, hv, hne]
    rw [hr] at hm
    exact hm

/-- C4 (witness): missing header yields the placeholder; present
non-empty header appears verbatim. -/
theorem renderConfigs_api_key_placeholder_witness :
    docHeaderVal (generateIDEConfigs ⟨"https://h", []⟩ "billing-agent").vscode
      "billing-agent" = some "YOUR_COMPOSIO_API_KEY" ∧
    docHeaderVal
      (generateIDEConfigs ⟨"https://h", [("x-api-key", "k1")]⟩ "billing-agent").vscode
      "billing-agent" = some "k1" :=
  ⟨((renderConfigs_api_key_placeholder ⟨"https://h", []⟩ "billing-agent").1
      (Or.inl rfl)).1,
   ((renderConfigs_api_key_placeholder ⟨"https://h", [("x-api-key", "k1")]⟩
      "billing-agent").2 "k1" rfl (by decide)).1⟩

/-- C6: `generateIDEConfigs` is pure and deterministic — equal inputs
yield equal documents — and for a fixed endpoint two labels produce
documents differing only in the single top-level key under
`mcpServers` (the label, used verbatim), with identical connection
descriptors. -/
theorem renderConfigs_pure_label_locality (gu : GeneratedUrl)
    (l1 l2 : String) :
    generateIDEConfigs gu l1 = generateIDEConfigs gu l1 ∧
    ∃ e ce,
      generateIDEConfigs gu l1 = ⟨⟨[(l1, e)]⟩, ⟨[(l1, e)]⟩, ⟨[(l1, ce)]⟩⟩ ∧
      generateIDEConfigs gu l2 = ⟨⟨[(l2, e)]⟩, ⟨[(l2, e)]⟩, ⟨[(l2, ce)]⟩⟩ :=
  ⟨rfl,
   ⟨"http", gu.url, setHeader gu.headers "x-api-key" (resolveApiKey gu.headers)⟩,
   ⟨none, none, some gu.url, some "http",
    some (setHeader gu.headers "x-api-key" (resolveApiKey gu.headers))⟩,
   rfl, rfl⟩

/-- C7: a platform error whose message contains `"already exists"`
makes `setup` raise the conflict `MCPServerError` naming the requested
(effective) server name, suggesting a rename or deletion, and wrapping
the underlying error — unconditionally, so this classification takes
precedence over the authorization-marker check. -/
theorem setup_conflict_precedence (config : SetupConfig) (msg : String)
    (h : strContainsSub msg "already exists" = true) :
    setup config (.error msg) =
      (.error (.mcpServerError
        ("MCP server with name '" ++ effectiveName config ++
         "' already exists with different configuration. " ++
         "Please use a different server name or delete the existing server.")
        (some msg)), 1) := by
  simp [setup, h]

/-- C7 (witness): the conflict error wins even when the message also
contains the `"401"` authorization marker. -/
theorem setup_conflict_precedence_witness :
    setup ⟨"k", "my-server"⟩ (.error "srv already exists (401)") =
      (.error (.mcpServerError
        "MCP server with name 'my-server' already exists with different configuration. Please use a different server name or delete the existing server."
        (some "srv already exists (401)")), 1) :=
  setup_conflict_precedence ⟨"k", "my-server"⟩ "srv already exists (401)"
    (by decide)

/-- C8: the fixed manifest satisfies the invariant — five toolkits,
eleven allowed tools, each tool qualified under a listed toolkit, with
exactly three under gmail and two under each of googlesheets,
googledrive, outlook and xero. -/
theorem manifest_invariant_holds :
    BILLING_TOOLKITS.length = 5 ∧
    BILLING_ALLOWED_TOOLS.length = 11 ∧
    BILLING_ALLOWED_TOOLS.countP (fun t => qualifiedUnder t "gmail") = 3 ∧
    BILLING_ALLOWED_TOOLS.countP (fun t => qualifiedUnder t "googlesheets") = 2 ∧
    BILLING_ALLOWED_TOOLS.countP (fun t => qualifiedUnder t "googledrive") = 2 ∧
    BILLING_ALLOWED_TOOLS.countP (fun t => qualifiedUnder t "outlook") = 2 ∧
    BILLING_ALLOWED_TOOLS.countP (fun t => qualifiedUnder t "xero") = 2 ∧
    BILLING_ALLOWED_TOOLS.all
      (fun t => BILLING_TOOLKITS.any (fun k => qualifiedUnder t k.toolkit)) =
      true := by
  decide

/-- C9: `getIDEConfigPath` is total and never throws — each recognized
target yields its documented path, and any other string yields the
fallback filename. -/
theorem configPathFor_total (ide : String)
    (h1 : ide ≠ "vscode") (h2 : ide ≠ "kiro") (h3 : ide ≠ "claudeDesktop") :
    getIDEConfigPath "vscode" = ".vscode/mcp.json" ∧
    getIDEConfigPath "kiro" = ".kiro/settings/mcp.json" ∧
    getIDEConfigPath "claudeDesktop" =
      "~/Library/Application Support/Claude/claude_desktop_config.json" ∧
    getIDEConfigPath ide = "mcp.json" := by
  refine ⟨rfl, rfl, rfl, ?_⟩
  simp [getIDEConfigPath, h1, h2, h3]

/-- C9 (witness): an unrecognized target. -/
theorem configPathFor_total_witness :
    getIDEConfigPath "vscode" = ".vscode/mcp.json" ∧
    getIDEConfigPath "kiro" = ".kiro/settings/mcp.json" ∧
    getIDEConfigPath "claudeDesktop" =
      "~/Library/Application Support/Claude/claude_desktop_config.json" ∧
    getIDEConfigPath "sublime" = "mcp.json" :=
  configPathFor_total "sublime" (by decide) (by decide) (by decide)

/-- C10 (implicit): the three documents of `generateIDEConfigs` are
identical as values — vscode equals kiro, and the Claude Desktop
document is exactly the embedding of the vscode document with
`command`/`args` never populated; equivalently the three per-target
generators agree on every input. -/
theorem ideConfig_targets_coincide (gu : GeneratedUrl) (l : String) :
    generateVSCodeConfig gu l = generateKiroConfig gu l ∧
    generateClaudeDesktopConfig gu l =
      vsConfigToClaude (generateVSCodeConfig gu l) ∧
    ∃ u hs, (generateIDEConfigs gu l).claudeDesktop =
      ⟨[(l, ⟨none, none, some u, some "http", some hs⟩)]⟩ :=
  ⟨rfl, rfl, gu.url,
   setHeader gu.headers "x-api-key" (resolveApiKey gu.headers), rfl⟩

end Billing
